import Mathlib

/-!
Verification of the MotionServer XBee device-communication layer and the
motion-capture file writer, against the design document.

The repository ships the declarations (src/src/XBeeDevice.h, src/src/MoCapFile.h);
the method bodies (XBeeDevice.cpp, MoCapFile.cpp) are not part of the excerpt, so
the operational behaviour below is modelled from the design document and from the
header documentation, with machine integers embedded as `Nat` with explicit
`% 2^w` where wrap-around matters.
-/

namespace MotionServer

/-- Device identity (`class XBeeDevice`, src/src/XBeeDevice.h lines 20-85):
serial number (uint64), 16-bit network address, optional name, and the two
16-bit version codes. -/
structure XBeeDevice where
  m_serialNumber : Nat
  m_networkAddress : Nat
  m_strName : String
  m_versionHW : Nat
  m_versionSW : Nat
deriving Repr, DecidableEq

/-- Modelled from the spec: `XBeeDevice::XBeeDevice` (the default constructor body
is missing from src/); a zero serial number marks an uninitialized identity, so
the fresh identity carries serial 0 and empty fields. -/
def XBeeDevice.defaultDevice : XBeeDevice :=
  { m_serialNumber := 0, m_networkAddress := 0, m_strName := "", m_versionHW := 0, m_versionSW := 0 }

/-- Accessor `XBeeDevice::getSerialNumber`. -/
def XBeeDevice.getSerialNumber (d : XBeeDevice) : Nat := d.m_serialNumber

/-- Accessor `XBeeDevice::getNetworkAddress`. -/
def XBeeDevice.getNetworkAddress (d : XBeeDevice) : Nat := d.m_networkAddress

/-- Accessor `XBeeDevice::getName`. -/
def XBeeDevice.getName (d : XBeeDevice) : String := d.m_strName

/-- Modelled from the spec: `XBeeDevice::isValid` (body missing from src/);
an identity is valid iff its serial number is nonzero. -/
def XBeeDevice.isValid (d : XBeeDevice) : Bool := d.m_serialNumber != 0

/-- Device role learned through discovery (`XBeeRemoteDevice::DeviceType`,
src/src/XBeeDevice.h lines 199-204). -/
inductive DeviceType where
  | Coordinator
  | Router
  | EndDevice
deriving Repr, DecidableEq

/-- Numeric code of a device type as it appears in a discovery reply
(0x00, 0x01, 0x02 per the header enum). -/
def decodeDeviceType : Nat → Option DeviceType
  | 0 => some DeviceType.Coordinator
  | 1 => some DeviceType.Router
  | 2 => some DeviceType.EndDevice
  | _ => none

/-- Remote device (`class XBeeRemoteDevice`): a device identity plus the parent
network address and the device type learned from the discovery reply. The C++
back-reference to the owning coordinator is a non-owning reference and carries
no data, so it is not part of the value model. -/
structure XBeeRemoteDevice extends XBeeDevice where
  m_parentAddress : Nat
  m_deviceType : DeviceType
deriving Repr, DecidableEq

/-- Accessor `XBeeRemoteDevice::getParentAddress`. -/
def XBeeRemoteDevice.getParentAddress (r : XBeeRemoteDevice) : Nat := r.m_parentAddress

/-- Accessor `XBeeRemoteDevice::getDeviceType`. -/
def XBeeRemoteDevice.getDeviceType (r : XBeeRemoteDevice) : DeviceType := r.m_deviceType

/-- Coordinator state (`class XBeeCoordinator`, src/src/XBeeDevice.h lines 92-188):
the inherited identity, the 8-bit frame counter (kept below 256 by explicit
`% 256`), the retry count and the registry of discovered nodes. The serial port
itself is modelled separately (see `SerialPort`). -/
structure XBeeCoordinator extends XBeeDevice where
  m_frameCounter : Nat
  m_numOfRetries : Nat
  m_arrNodes : List XBeeRemoteDevice
deriving Repr, DecidableEq

/-- Serial transport boundary: open state and baud rate are the only attributes
the claims touch. -/
structure SerialPort where
  portOpen : Bool
  baudrate : Nat
deriving Repr, DecidableEq

/-- Modelled from the spec: `XBeeCoordinator::XBeeCoordinator(SerialPort&)`
(body missing from src/). The header documentation (lines 96-102) states
"The port is opened and set to a default baudrate of 57600", and the destructor
documentation states "Closes the serial port"; accordingly the constructor
yields the port in the open state at baudrate 57600, with a fresh coordinator
state. -/
def coordinatorCtor (p : SerialPort) : SerialPort × XBeeCoordinator :=
  ({ p with portOpen := true, baudrate := 57600 },
   { toXBeeDevice := XBeeDevice.defaultDevice,
     m_frameCounter := 0, m_numOfRetries := 3, m_arrNodes := [] })

/-- Modelled from the spec: `XBeeCoordinator::setNumberOfRetries` (body missing
from src/); mutates the retry count, taking effect on the next `process` call. -/
def setNumberOfRetries (c : XBeeCoordinator) (retries : Nat) : XBeeCoordinator :=
  { c with m_numOfRetries := retries }

/-- Result of reading one frame from the transport and handing it to the frame
codec: the read can time out, the decode can report an integrity (checksum or
length) failure, or a typed frame with its frame type, sequence id and payload
is produced. -/
inductive TransportRead where
  | timeout
  | integrityError
  | frame (frameType : Nat) (frameId : Nat) (payload : List Nat)
deriving Repr, DecidableEq

/-- First stage of `receive`: the transport read plus codec decode, yielding the
decoded frame fields or nothing on timeout or integrity failure. -/
def decodeStep : TransportRead → Option (Nat × Nat × List Nat)
  | TransportRead.timeout => none
  | TransportRead.integrityError => none
  | TransportRead.frame t s p => some (t, s, p)

/-- Expected-response descriptor of an `XBeePacket_Receive`: the frame type and
sequence id the caller is waiting for, plus the payload slot `receive`
populates. -/
structure XBeePacket_Receive where
  expType : Nat
  expFrameId : Nat
  payload : List Nat
deriving Repr, DecidableEq

/-- Second stage of `receive`: validate the decoded frame against the expected
type and sequence id; on a match, populate the caller-supplied packet. -/
def matchExpected (exp : XBeePacket_Receive) (f : Nat × Nat × List Nat) :
    Option XBeePacket_Receive :=
  if f.1 = exp.expType ∧ f.2.1 = exp.expFrameId then
    some { exp with payload := f.2.2 }
  else
    none

/-- Modelled from the spec: `XBeeCoordinator::receive(XBeePacket_Receive&)` (body
missing from src/). Blocks for one bounded transport read, decodes, and fails on
timeout, integrity failure, or a type or sequence-id mismatch with the expected
response; on success the populated response is returned. -/
def receive (exp : XBeePacket_Receive) (input : TransportRead) :
    Option XBeePacket_Receive :=
  (decodeStep input).bind (matchExpected exp)

/-- Modelled from the spec: `XBeeCoordinator::send` (body missing from src/).
Tags the request with a fresh sequence id, encodes and writes it; the frame
counter advances by one modulo 256 regardless of the write outcome. Returns the
updated coordinator, the sequence id embedded in the frame, and the write
outcome. -/
def send (c : XBeeCoordinator) (writeOk : Bool) : XBeeCoordinator × Nat × Bool :=
  let fresh := (c.m_frameCounter + 1) % 256
  ({ c with m_frameCounter := fresh }, fresh, writeOk)

/-- Iterated `send`: performs one send per listed write outcome and collects the
sequence ids embedded in the outgoing frames, in order. -/
def sendRun (c : XBeeCoordinator) : List Bool → XBeeCoordinator × List Nat
  | [] => (c, [])
  | w :: ws =>
    let s := send c w
    let rest := sendRun s.1 ws
    (rest.1, s.2.1 :: rest.2)

/-- One attempt of the transport as `process` sees it: the outcome of the write
and the outcome of the subsequent read-and-decode. -/
structure Attempt where
  writeOk : Bool
  recvInput : TransportRead
deriving Repr, DecidableEq

/-- Retry loop of `process` with `fuel` attempts remaining: each attempt sends
the request (advancing the frame counter) and then receives with the expected
sequence id set to the one just sent; the first successful receive stops the
loop. Returns the overall outcome, the number of send/receive cycles performed,
and the final coordinator state. -/
def processGo (ty : Nat) (script : Nat → Attempt) :
    XBeeCoordinator → Nat → Nat → Bool × Nat × XBeeCoordinator
  | c, _, 0 => (false, 0, c)
  | c, i, fuel + 1 =>
    let s := send c (script i).writeOk
    let exp : XBeePacket_Receive := { expType := ty, expFrameId := s.2.1, payload := [] }
    match receive exp (script i).recvInput with
    | some _ => (true, 1, s.1)
    | none =>
      let r := processGo ty script s.1 (i + 1) fuel
      (r.1, r.2.1 + 1, r.2.2)

/-- Modelled from the spec: `XBeeCoordinator::process` (body missing from src/).
Attempts `retryCount + 1` send/receive cycles against the scripted transport,
returning success at the first successful receive and failure once all attempts
are exhausted. -/
def process (ty : Nat) (script : Nat → Attempt) (c : XBeeCoordinator) :
    Bool × Nat × XBeeCoordinator :=
  processGo ty script c 0 (c.m_numOfRetries + 1)

/-- Read a 16-bit big-endian value from the front of a byte buffer, failing if
fewer than two bytes remain. -/
def readU16 : List Nat → Option (Nat × List Nat)
  | a :: b :: rest => some (a * 256 + b, rest)
  | _ => none

/-- Read a 64-bit big-endian value (the serial number) from the front of a byte
buffer, failing if fewer than eight bytes remain. -/
def readU64 : List Nat → Option (Nat × List Nat)
  | a :: b :: c :: d :: e :: f :: g :: h :: rest =>
    some (((((((a * 256 + b) * 256 + c) * 256 + d) * 256 + e) * 256 + f) * 256 + g) * 256 + h,
          rest)
  | _ => none

/-- Read a zero-terminated node-identifier string from the front of a byte
buffer, failing if no terminator is present. -/
def readNodeName : List Nat → Option (String × List Nat)
  | [] => none
  | c :: rest =>
    if c = 0 then some ("", rest)
    else (readNodeName rest).map (fun r => (String.mk (Char.ofNat c :: r.1.toList), r.2))

/-- Modelled from the spec: the layout of a "ND" discovery-reply payload (the
parsing code is missing from src/) — 16-bit network address, 64-bit serial
number, zero-terminated name, 16-bit parent address, device-type code, and the
16-bit software and hardware version codes, read left to right with a cursor
that fails on out-of-bounds access or an unknown device-type code. -/
def parseND (buf : List Nat) :
    Option (Nat × Nat × String × Nat × DeviceType × Nat × Nat) := do
  let (addr, r1) ← readU16 buf
  let (serial, r2) ← readU64 r1
  let (nodeName, r3) ← readNodeName r2
  let (parent, r4) ← readU16 r3
  match r4 with
  | [] => none
  | tyCode :: r5 =>
    let ty ← decodeDeviceType tyCode
    let (sw, r6) ← readU16 r5
    let (hw, _) ← readU16 r6
    pure (addr, serial, nodeName, parent, ty, sw, hw)

/-- Modelled from the spec: `XBeeRemoteDevice::XBeeRemoteDevice` (body missing
from src/). Construction from a discovery-reply buffer fails softly: a
malformed buffer yields an identity with serial number 0, whose `isValid` is
false, instead of throwing; the function is total, so construction can never
abort the enclosing scan. -/
def XBeeRemoteDevice.fromBuffer (buf : List Nat) : XBeeRemoteDevice :=
  match parseND buf with
  | some (addr, serial, nodeName, parent, ty, sw, hw) =>
    { m_serialNumber := serial, m_networkAddress := addr, m_strName := nodeName,
      m_versionHW := hw, m_versionSW := sw,
      m_parentAddress := parent, m_deviceType := ty }
  | none =>
    { toXBeeDevice := XBeeDevice.defaultDevice,
      m_parentAddress := 0, m_deviceType := DeviceType.EndDevice }

/-- A discovery-reply buffer is well formed when it parses and carries a
nonzero serial number (a zero serial would mark the identity invalid). -/
def wellFormedReply (buf : List Nat) : Bool :=
  match parseND buf with
  | some (_, serial, _) => serial != 0
  | none => false

/-- Modelled from the spec: `XBeeCoordinator::scanDevices` (body missing from
src/). Issues the broadcast discovery command (one outgoing request, advancing
the frame counter) and collects every reply decoded within the discovery
window — `replies` lists those reply buffers in arrival order. Each reply is
parsed into a remote device; an invalid record is skipped and the scan
continues. The registry is rebuilt from this pass alone and the count of
devices found is returned; zero replies is a valid outcome, not an error. -/
def scanDevices (c : XBeeCoordinator) (replies : List (List Nat)) :
    Nat × XBeeCoordinator :=
  let devs := (replies.map XBeeRemoteDevice.fromBuffer).filter
    (fun d => d.toXBeeDevice.isValid)
  (devs.length,
   { c with m_frameCounter := (c.m_frameCounter + 1) % 256, m_arrNodes := devs })

/-- Accessor `XBeeCoordinator::getConnectedDevices`: a read-only view of the
registry. -/
def getConnectedDevices (c : XBeeCoordinator) : List XBeeRemoteDevice :=
  c.m_arrNodes

/-- Wall-clock stamp used to name a capture file. -/
structure Timestamp where
  year : Nat
  month : Nat
  day : Nat
  hour : Nat
  minute : Nat
  second : Nat
deriving Repr, DecidableEq

/-- Two-digit zero-padded decimal rendering of a field of the timestamp. -/
def digits2 (n : Nat) : String :=
  String.mk [Char.ofNat (48 + n / 10 % 10), Char.ofNat (48 + n % 10)]

/-- Four-digit zero-padded decimal rendering of the year. -/
def digits4 (n : Nat) : String :=
  String.mk [Char.ofNat (48 + n / 1000 % 10), Char.ofNat (48 + n / 100 % 10),
             Char.ofNat (48 + n / 10 % 10), Char.ofNat (48 + n % 10)]

/-- Modelled from the spec: `MoCapFileWriter::getTimestampFilename` (body
missing from src/). Per the header documentation (src/src/MoCapFile.h lines
91-97), produces a filename of the form
"MotionServer File YYYY_MM_DD_HH_MM.SS.mot" from the current timestamp. -/
def getTimestampFilename (t : Timestamp) : String :=
  "MotionServer File " ++ digits4 t.year ++ "_" ++ digits2 t.month ++ "_" ++
    digits2 t.day ++ "_" ++ digits2 t.hour ++ "_" ++ digits2 t.minute ++ "." ++
    digits2 t.second ++ ".mot"

/-- Decimal-digit test on a character, by its code point. -/
def isDigitChar (c : Char) : Bool := 48 ≤ c.toNat && c.toNat ≤ 57

/-- Concrete coordinator freshly bound to an open port, used to evaluate the
model on concrete runs. -/
def c0 : XBeeCoordinator := (coordinatorCtor { portOpen := true, baudrate := 57600 }).2

/-- The expected response `process` waits for on its attempt `j` when started
from coordinator `c`: the request's frame type together with the sequence id of
the j-th outgoing frame, the one just sent on that attempt. -/
def expectedAt (ty : Nat) (c : XBeeCoordinator) (j : Nat) : XBeePacket_Receive :=
  { expType := ty, expFrameId := (c.m_frameCounter + j + 1) % 256, payload := [] }

/-- Scripted transport on which every attempt fails, each in a different way:
attempt 0 yields a frame failing integrity validation, attempt 1 a frame of the
wrong type, and every later attempt a frame of the right type carrying the
stale sequence id 1. -/
def scriptMixedFail : Nat → Attempt :=
  fun j =>
    if j = 0 then { writeOk := true, recvInput := TransportRead.integrityError }
    else if j = 1 then { writeOk := true, recvInput := TransportRead.frame 9 2 [] }
    else { writeOk := true, recvInput := TransportRead.frame 7 1 [] }

/-- Scripted transport that times out on attempt 0 and delivers a matching
reply (type 7, sequence id 2 — the id of the second outgoing frame of `c0`)
on attempt 1. -/
def scriptSecondTry : Nat → Attempt :=
  fun j =>
    if j = 1 then { writeOk := true, recvInput := TransportRead.frame 7 2 [3] }
    else { writeOk := true, recvInput := TransportRead.timeout }

/-- Concrete expected-response descriptor: frame type 7, sequence id 3. -/
def exp0 : XBeePacket_Receive := { expType := 7, expFrameId := 3, payload := [] }

/-- Concrete well-formed discovery reply: address 1, serial 5, name "A",
parent 0, router, software version 1, hardware version 2. -/
def goodReply1 : List Nat := [0, 1, 0, 0, 0, 0, 0, 0, 0, 5, 65, 0, 0, 0, 1, 0, 1, 0, 2]

/-- Concrete well-formed discovery reply: address 2, serial 6, name "B",
parent 1, end device, software version 1, hardware version 2. -/
def goodReply2 : List Nat := [0, 2, 0, 0, 0, 0, 0, 0, 0, 6, 66, 0, 0, 1, 2, 0, 1, 0, 2]

/-- Concrete serial port in the closed state. -/
def closedPort : SerialPort := { portOpen := false, baudrate := 9600 }

/-- A remote device parsed from a buffer is valid exactly when the buffer is
well formed. -/
lemma isValid_fromBuffer (b : List Nat) :
    (XBeeRemoteDevice.fromBuffer b).toXBeeDevice.isValid = wellFormedReply b := by
  unfold XBeeRemoteDevice.fromBuffer wellFormedReply
  cases hp : parseND b with
  | none => simp [XBeeDevice.isValid, XBeeDevice.defaultDevice]
  | some v =>
    obtain ⟨a, s, nm, pa, ty, sw, hw⟩ := v
    simp [XBeeDevice.isValid]

/-- C10: immediately after default construction of an `XBeeDevice`, the serial
number is 0 and `isValid` reports false — a fresh identity is always in the
uninitialized, invalid state. -/
theorem defaultDevice_invalid :
    XBeeDevice.defaultDevice.getSerialNumber = 0 ∧
    XBeeDevice.defaultDevice.isValid = false :=
  ⟨rfl, rfl⟩

/-- C7: for every device identity — the base `XBeeDevice` as well as the
identity parts of `XBeeRemoteDevice` and `XBeeCoordinator` — `isValid` returns
true if and only if the serial number is nonzero. -/
theorem isValid_iff_serial_nonzero :
    (∀ d : XBeeDevice, d.isValid = true ↔ d.getSerialNumber ≠ 0) ∧
    (∀ r : XBeeRemoteDevice,
      r.toXBeeDevice.isValid = true ↔ r.toXBeeDevice.getSerialNumber ≠ 0) ∧
    (∀ c : XBeeCoordinator,
      c.toXBeeDevice.isValid = true ↔ c.toXBeeDevice.getSerialNumber ≠ 0) := by
  refine ⟨?_, ?_, ?_⟩ <;> intro x <;>
    simp [XBeeDevice.isValid, XBeeDevice.getSerialNumber]

/-- C5: scanning a mesh from which no discovery reply arrives inside the window
returns the count 0 and leaves the registry empty; the model's return type has
no error channel, so the empty outcome is an ordinary result. -/
theorem scanDevices_empty_mesh (c : XBeeCoordinator) :
    (scanDevices c []).1 = 0 ∧ getConnectedDevices (scanDevices c []).2 = [] :=
  ⟨rfl, rfl⟩

/-- C8 counterexample: constructing a coordinator on a closed serial port
yields the port in the open state — the constructor does perform the opening of
the port, contrary to the claim that it binds to an already-open transport
without opening it. -/
theorem coordinatorCtor_opens_closed_port :
    closedPort.portOpen = false ∧ (coordinatorCtor closedPort).1.portOpen = true :=
  ⟨rfl, rfl⟩

/-- C8 amended: constructing an `XBeeCoordinator` binds it to the given serial
port, and the constructor itself opens the port and sets it to the default
baudrate of 57600 (per the header documentation; the destructor closes it). -/
theorem coordinatorCtor_opens_and_sets_baudrate (p : SerialPort) :
    (coordinatorCtor p).1.portOpen = true ∧ (coordinatorCtor p).1.baudrate = 57600 :=
  ⟨rfl, rfl⟩

/-- After a run of sends the frame counter holds the initial value plus the
number of sends, modulo 256. -/
lemma sendRun_frameCounter (ws : List Bool) :
    ∀ c : XBeeCoordinator, c.m_frameCounter < 256 →
      (sendRun c ws).1.m_frameCounter = (c.m_frameCounter + ws.length) % 256 := by
  induction ws with
  | nil =>
    intro c hc
    simp [sendRun, Nat.mod_eq_of_lt hc]
  | cons w ws ih =>
    intro c hc
    have h1 : (send c w).1.m_frameCounter = (c.m_frameCounter + 1) % 256 := rfl
    have h2 := ih (send c w).1 (by rw [h1]; exact Nat.mod_lt _ (by norm_num))
    simp only [sendRun, h2, h1, Nat.mod_add_mod, List.length_cons]
    congr 1
    omega

/-- The sequence ids a run of sends embeds in its outgoing frames, listed in
order: the i-th outgoing frame carries id `(initial counter + i + 1) % 256`. -/
lemma sendRun_ids (ws : List Bool) :
    ∀ c : XBeeCoordinator,
      (sendRun c ws).2 =
        (List.range ws.length).map (fun i => (c.m_frameCounter + i + 1) % 256) := by
  induction ws with
  | nil => intro c; simp [sendRun]
  | cons w ws ih =>
    intro c
    have h1 : (send c w).1.m_frameCounter = (c.m_frameCounter + 1) % 256 := rfl
    simp only [sendRun, ih (send c w).1, h1, List.length_cons,
      List.range_succ_eq_map, List.map_cons, List.map_map]
    rw [List.cons.injEq]
    constructor
    · simp [send]
    · apply List.map_congr_left
      intro i _
      simp only [Function.comp_apply, Nat.succ_eq_add_one]
      omega

/-- C2: every `send` advances the 8-bit frame counter by exactly one modulo
256, whatever the write outcome; a run of 256 consecutive sends returns the
counter to its initial value; and the sequence ids embedded in any run of at
most 256 consecutive requests are pairwise distinct. -/
theorem send_frameCounter_spec (c : XBeeCoordinator) (ws : List Bool)
    (hc : c.m_frameCounter < 256) (hlen : ws.length ≤ 256) :
    (∀ w, (send c w).1.m_frameCounter = (c.m_frameCounter + 1) % 256) ∧
    (ws.length = 256 → (sendRun c ws).1.m_frameCounter = c.m_frameCounter) ∧
    (sendRun c ws).2.Nodup := by
  refine ⟨fun w => rfl, ?_, ?_⟩
  · intro h256
    rw [sendRun_frameCounter ws c hc, h256, Nat.add_mod_right, Nat.mod_eq_of_lt hc]
  · rw [sendRun_ids ws c]
    apply List.Nodup.map_on
    · intro i hi j hj hij
      rw [List.mem_range] at hi hj
      have hmod : (c.m_frameCounter + i + 1) % 256 = (c.m_frameCounter + j + 1) % 256 := hij
      have h1 : c.m_frameCounter + 1 + i ≡ c.m_frameCounter + 1 + j [MOD 256] := by
        have : c.m_frameCounter + i + 1 ≡ c.m_frameCounter + j + 1 [MOD 256] := hmod
        calc c.m_frameCounter + 1 + i
            = c.m_frameCounter + i + 1 := by omega
          _ ≡ c.m_frameCounter + j + 1 [MOD 256] := this
          _ = c.m_frameCounter + 1 + j := by omega
      have h2 : i ≡ j [MOD 256] := Nat.ModEq.add_left_cancel' _ h1
      have h3 : i % 256 = j % 256 := h2
      rwa [Nat.mod_eq_of_lt (by omega), Nat.mod_eq_of_lt (by omega)] at h3
    · exact List.nodup_range _

/-- C2 witness: on the fresh coordinator `c0` (counter 0), a run of 256 sends
returns the counter to 0 and its embedded sequence ids are pairwise distinct. -/
theorem send_frameCounter_spec_witness :
    (sendRun c0 (List.replicate 256 true)).1.m_frameCounter = c0.m_frameCounter ∧
    (sendRun c0 (List.replicate 256 true)).2.Nodup := by
  have hlen : (List.replicate 256 true).length = 256 := List.length_replicate 256 true
  have h := send_frameCounter_spec c0 (List.replicate 256 true) (by decide) (le_of_eq hlen)
  exact ⟨h.2.1 hlen, h.2.2⟩

/-- When every attempt within the fuel budget fails — the receive matched
against the sequence id of the frame just sent returns nothing, whether by
timeout, integrity failure or a mismatched frame — the retry loop consumes all
its fuel, one send/receive cycle per unit, and reports failure. -/
lemma processGo_all_fail (ty : Nat) (script : Nat → Attempt) :
    ∀ (fuel i : Nat) (c : XBeeCoordinator),
      (∀ j, j < fuel → receive (expectedAt ty c j) (script (i + j)).recvInput = none) →
      (processGo ty script c i fuel).1 = false ∧
      (processGo ty script c i fuel).2.1 = fuel := by
  intro fuel
  induction fuel with
  | zero => intro i c h; exact ⟨rfl, rfl⟩
  | succ n ih =>
    intro i c h
    have h0 := h 0 (Nat.succ_pos n)
    rw [Nat.add_zero] at h0
    have hrecv :
        receive { expType := ty, expFrameId := (send c (script i).writeOk).2.1, payload := [] }
          (script i).recvInput = none := h0
    have hfc : (send c (script i).writeOk).1.m_frameCounter = (c.m_frameCounter + 1) % 256 :=
      rfl
    have key : ∀ j : Nat,
        expectedAt ty (send c (script i).writeOk).1 j = expectedAt ty c (j + 1) := by
      intro j
      unfold expectedAt
      rw [hfc, show ((c.m_frameCounter + 1) % 256 + j + 1) % 256
            = (c.m_frameCounter + (j + 1) + 1) % 256 by omega]
    have hih := ih (i + 1) (send c (script i).writeOk).1 (fun j hj => by
      have h2 := h (j + 1) (by omega)
      rw [show i + (j + 1) = i + 1 + j by omega] at h2
      rw [key j]
      exact h2)
    simp only [processGo, hrecv]
    exact ⟨hih.1, by rw [hih.2]⟩

/-- When the first `m` attempts fail — in any of the three failure modes — and
the receive of attempt `m`, matched against the sequence id of the frame just
sent, succeeds, the retry loop stops after exactly `m + 1` cycles and reports
success. -/
lemma processGo_first_success (ty : Nat) (script : Nat → Attempt) :
    ∀ (m fuel i : Nat) (c : XBeeCoordinator), m < fuel →
      (∀ j, j < m → receive (expectedAt ty c j) (script (i + j)).recvInput = none) →
      receive (expectedAt ty c m) (script (i + m)).recvInput ≠ none →
      (processGo ty script c i fuel).1 = true ∧
      (processGo ty script c i fuel).2.1 = m + 1 := by
  intro m
  induction m with
  | zero =>
    intro fuel i c hm hfail hsucc
    obtain ⟨n, rfl⟩ : ∃ n, fuel = n + 1 := ⟨fuel - 1, by omega⟩
    rw [Nat.add_zero] at hsucc
    obtain ⟨r, hr⟩ : ∃ r,
        receive (expectedAt ty c 0) (script i).recvInput = some r := by
      cases ho : receive (expectedAt ty c 0) (script i).recvInput with
      | none => exact absurd ho hsucc
      | some r => exact ⟨r, rfl⟩
    have hrecv :
        receive { expType := ty, expFrameId := (send c (script i).writeOk).2.1, payload := [] }
          (script i).recvInput = some r := hr
    simp only [processGo, hrecv]
    constructor <;> simp
  | succ m ih =>
    intro fuel i c hm hfail hsucc
    obtain ⟨n, rfl⟩ : ∃ n, fuel = n + 1 := ⟨fuel - 1, by omega⟩
    have h0 := hfail 0 (Nat.succ_pos m)
    rw [Nat.add_zero] at h0
    have hrecv :
        receive { expType := ty, expFrameId := (send c (script i).writeOk).2.1, payload := [] }
          (script i).recvInput = none := h0
    have hfc : (send c (script i).writeOk).1.m_frameCounter = (c.m_frameCounter + 1) % 256 :=
      rfl
    have key : ∀ j : Nat,
        expectedAt ty (send c (script i).writeOk).1 j = expectedAt ty c (j + 1) := by
      intro j
      unfold expectedAt
      rw [hfc, show ((c.m_frameCounter + 1) % 256 + j + 1) % 256
            = (c.m_frameCounter + (j + 1) + 1) % 256 by omega]
    have hih := ih n (i + 1) (send c (script i).writeOk).1 (by omega)
      (fun j hj => by
        have h2 := hfail (j + 1) (by omega)
        rw [show i + (j + 1) = i + 1 + j by omega] at h2
        rw [key j]
        exact h2)
      (by
        rw [show i + 1 + m = i + (m + 1) by omega, key m]
        exact hsucc)
    simp only [processGo, hrecv]
    exact ⟨hih.1, by rw [hih.2]⟩

/-- C1: with the retry count set to `k` via `setNumberOfRetries`, if every one
of the `k + 1` attempts fails — its receive, matched against the sequence id
just sent, returns nothing, whether by timeout, integrity failure, or a frame
of mismatched type or sequence id — then `process` performs exactly `k + 1`
send/receive cycles and returns failure; and if only the first `m < k + 1`
attempts fail and the receive of attempt `m` succeeds, `process` returns
success after exactly `m + 1` cycles, making no further attempts. -/
theorem process_retry_policy (k ty : Nat) (script : Nat → Attempt)
    (c : XBeeCoordinator) :
    ((∀ j, j < k + 1 → receive (expectedAt ty c j) (script j).recvInput = none) →
      (process ty script (setNumberOfRetries c k)).1 = false ∧
      (process ty script (setNumberOfRetries c k)).2.1 = k + 1) ∧
    (∀ m, m < k + 1 →
      (∀ j, j < m → receive (expectedAt ty c j) (script j).recvInput = none) →
      receive (expectedAt ty c m) (script m).recvInput ≠ none →
      (process ty script (setNumberOfRetries c k)).1 = true ∧
      (process ty script (setNumberOfRetries c k)).2.1 = m + 1) := by
  constructor
  · intro h
    exact processGo_all_fail ty script (k + 1) 0 (setNumberOfRetries c k)
      (fun j hj => by rw [Nat.zero_add]; exact h j hj)
  · intro m hm hfail hsucc
    exact processGo_first_success ty script m (k + 1) 0 (setNumberOfRetries c k) hm
      (fun j hj => by rw [Nat.zero_add]; exact hfail j hj)
      (by rw [Nat.zero_add]; exact hsucc)

/-- C1 witness: on the fresh coordinator with retry count 2, the transport
whose three attempts fail by integrity error, wrong frame type and stale
sequence id yields failure after exactly 3 cycles; and the transport that times
out once and then delivers a matching reply yields success after exactly 2
cycles. -/
theorem process_retry_policy_witness :
    ((process 7 scriptMixedFail (setNumberOfRetries c0 2)).1 = false ∧
      (process 7 scriptMixedFail (setNumberOfRetries c0 2)).2.1 = 3) ∧
    ((process 7 scriptSecondTry (setNumberOfRetries c0 2)).1 = true ∧
      (process 7 scriptSecondTry (setNumberOfRetries c0 2)).2.1 = 2) := by
  constructor
  · exact (process_retry_policy 2 7 scriptMixedFail c0).1 (by decide)
  · exact (process_retry_policy 2 7 scriptSecondTry c0).2 1 (by omega) (by decide) (by decide)

/-- C3: `receive` fails exactly when the transport read times out, the decode
reports an integrity failure, or the decoded frame's type or sequence id does
not match the expected response; in particular a frame whose sequence id
differs from the expected one is rejected, and on a full match the
caller-supplied response object is populated with the frame payload and
returned. -/
theorem receive_fails_iff (exp : XBeePacket_Receive) (input : TransportRead) :
    (receive exp input = none ↔
      input = TransportRead.timeout ∨ input = TransportRead.integrityError ∨
        ∃ t s p, input = TransportRead.frame t s p ∧
          (t ≠ exp.expType ∨ s ≠ exp.expFrameId)) ∧
    (∀ t s p, input = TransportRead.frame t s p → s ≠ exp.expFrameId →
      receive exp input = none) ∧
    (∀ t s p, input = TransportRead.frame t s p → t = exp.expType →
      s = exp.expFrameId →
      receive exp input = some { exp with payload := p }) := by
  refine ⟨?_, ?_, ?_⟩
  · cases input with
    | timeout => simp [receive, decodeStep]
    | integrityError => simp [receive, decodeStep]
    | frame t s p =>
      simp only [receive, decodeStep, Option.some_bind, matchExpected]
      by_cases h : t = exp.expType ∧ s = exp.expFrameId
      · simp [h, h.1, h.2]
      · rw [if_neg h]
        simp only [true_iff]
        refine Or.inr (Or.inr ⟨t, s, p, rfl, ?_⟩)
        by_cases ht : t = exp.expType
        · exact Or.inr (fun hs => h ⟨ht, hs⟩)
        · exact Or.inl ht
  · intro t s p hin hs
    subst hin
    simp [receive, decodeStep, matchExpected, hs]
  · intro t s p hin ht hs
    subst hin
    simp [receive, decodeStep, matchExpected, ht, hs]

/-- C3 witness: against the expected response of type 7 and sequence id 3, a
frame with mismatching sequence id 4 is rejected, a timeout is rejected, and
the matching frame with payload `[9]` populates the response. -/
theorem receive_fails_iff_witness :
    receive exp0 (TransportRead.frame 7 4 []) = none ∧
    receive exp0 TransportRead.timeout = none ∧
    receive exp0 (TransportRead.frame 7 3 [9]) =
      some { expType := 7, expFrameId := 3, payload := [9] } := by
  refine ⟨?_, ?_, ?_⟩
  · exact (receive_fails_iff exp0 (TransportRead.frame 7 4 [])).2.1 7 4 [] rfl (by decide)
  · exact (receive_fails_iff exp0 TransportRead.timeout).1.mpr (Or.inl rfl)
  · exact (receive_fails_iff exp0 (TransportRead.frame 7 3 [9])).2.2 7 3 [9] rfl rfl rfl

/-- When every reply in the window is well formed, the scan's filter keeps the
parse of every reply. -/
lemma scan_filter_all (replies : List (List Nat))
    (hwf : ∀ b ∈ replies, wellFormedReply b = true) :
    (replies.map XBeeRemoteDevice.fromBuffer).filter
      (fun d => d.toXBeeDevice.isValid) = replies.map XBeeRemoteDevice.fromBuffer := by
  apply List.filter_eq_self.mpr
  intro d hd
  rw [List.mem_map] at hd
  obtain ⟨b, hb, rfl⟩ := hd
  rw [isValid_fromBuffer]
  exact hwf b hb

/-- C4: if exactly the replies listed arrive within the discovery window, all
well formed and with pairwise distinct serial numbers, then `scanDevices`
returns their number and `getConnectedDevices` afterwards yields exactly the
devices parsed from those replies, in order — the registry is rebuilt from this
pass alone, independent of any earlier contents. -/
theorem scanDevices_registers_all (c : XBeeCoordinator) (replies : List (List Nat))
    (hwf : ∀ b ∈ replies, wellFormedReply b = true)
    (_hdistinct : (replies.map
      (fun b => (XBeeRemoteDevice.fromBuffer b).toXBeeDevice.getSerialNumber)).Nodup) :
    (scanDevices c replies).1 = replies.length ∧
    getConnectedDevices (scanDevices c replies).2 =
      replies.map XBeeRemoteDevice.fromBuffer := by
  have hfilter := scan_filter_all replies hwf
  constructor
  · show ((replies.map XBeeRemoteDevice.fromBuffer).filter _).length = replies.length
    rw [hfilter, List.length_map]
  · show (replies.map XBeeRemoteDevice.fromBuffer).filter _ = _
    exact hfilter

/-- C4 witness: two well-formed replies with distinct serial numbers 5 and 6
yield a scan count of 2 and a registry holding exactly their parses. -/
theorem scanDevices_registers_all_witness :
    (scanDevices c0 [goodReply1, goodReply2]).1 = 2 ∧
    getConnectedDevices (scanDevices c0 [goodReply1, goodReply2]).2 =
      [XBeeRemoteDevice.fromBuffer goodReply1, XBeeRemoteDevice.fromBuffer goodReply2] := by
  have h := scanDevices_registers_all c0 [goodReply1, goodReply2] (by decide) (by decide)
  exact ⟨h.1, h.2⟩

/-- C6: parsing a malformed discovery reply is a total operation that yields an
invalid identity (`isValid = false`); within a scan the offending reply is
skipped — the registry gains exactly the parses of the well-formed replies that
follow it, and the count ignores the malformed one. -/
theorem scan_skips_malformed (c : XBeeCoordinator) (pre post : List (List Nat))
    (bad : List Nat) (hbad : wellFormedReply bad = false)
    (hpost : ∀ b ∈ post, wellFormedReply b = true) :
    (XBeeRemoteDevice.fromBuffer bad).toXBeeDevice.isValid = false ∧
    getConnectedDevices (scanDevices c (pre ++ bad :: post)).2 =
      getConnectedDevices (scanDevices c pre).2 ++
        post.map XBeeRemoteDevice.fromBuffer ∧
    (scanDevices c (pre ++ bad :: post)).1 = (scanDevices c pre).1 + post.length := by
  have hbadValid : (XBeeRemoteDevice.fromBuffer bad).toXBeeDevice.isValid = false := by
    rw [isValid_fromBuffer]; exact hbad
  have hsplit :
      ((pre ++ bad :: post).map XBeeRemoteDevice.fromBuffer).filter
        (fun d => d.toXBeeDevice.isValid) =
      (pre.map XBeeRemoteDevice.fromBuffer).filter (fun d => d.toXBeeDevice.isValid) ++
        post.map XBeeRemoteDevice.fromBuffer := by
    rw [List.map_append, List.filter_append, List.map_cons, List.filter_cons]
    rw [hbadValid]
    simp only [Bool.false_eq_true, if_false]
    rw [scan_filter_all post hpost]
  refine ⟨hbadValid, ?_, ?_⟩
  · show ((pre ++ bad :: post).map XBeeRemoteDevice.fromBuffer).filter _ = _
    exact hsplit
  · show (((pre ++ bad :: post).map XBeeRemoteDevice.fromBuffer).filter _).length = _
    rw [hsplit, List.length_append, List.length_map]
    rfl

/-- C6 witness: the empty buffer is malformed and parses to an invalid
identity; scanning it followed by one well-formed reply registers exactly that
reply and counts 1. -/
theorem scan_skips_malformed_witness :
    (XBeeRemoteDevice.fromBuffer []).toXBeeDevice.isValid = false ∧
    getConnectedDevices (scanDevices c0 ([] ++ [] :: [goodReply1])).2 =
      getConnectedDevices (scanDevices c0 []).2 ++
        [goodReply1].map XBeeRemoteDevice.fromBuffer ∧
    (scanDevices c0 ([] ++ [] :: [goodReply1])).1 = (scanDevices c0 []).1 + 1 := by
  exact scan_skips_malformed c0 [] [goodReply1] [] (by decide) (by decide)

/-- The character rendering a single decimal digit is a digit character. -/
lemma isDigitChar_code (d : Nat) (hd : d < 10) :
    isDigitChar (Char.ofNat (48 + d)) = true := by
  interval_cases d <;> decide

/-- A two-digit field rendering has length 2 and consists of digit
characters. -/
lemma digits2_spec (n : Nat) :
    (digits2 n).length = 2 ∧ (digits2 n).toList.all isDigitChar = true := by
  constructor
  · rfl
  · show ([Char.ofNat (48 + n / 10 % 10), Char.ofNat (48 + n % 10)].all isDigitChar) = true
    simp only [List.all_cons, List.all_nil, Bool.and_true]
    rw [isDigitChar_code _ (Nat.mod_lt _ (by norm_num)),
      isDigitChar_code _ (Nat.mod_lt _ (by norm_num))]
    rfl

/-- The four-digit year rendering has length 4 and consists of digit
characters. -/
lemma digits4_spec (n : Nat) :
    (digits4 n).length = 4 ∧ (digits4 n).toList.all isDigitChar = true := by
  constructor
  · rfl
  · show ([Char.ofNat (48 + n / 1000 % 10), Char.ofNat (48 + n / 100 % 10),
      Char.ofNat (48 + n / 10 % 10), Char.ofNat (48 + n % 10)].all isDigitChar) = true
    simp only [List.all_cons, List.all_nil, Bool.and_true]
    rw [isDigitChar_code _ (Nat.mod_lt _ (by norm_num)),
      isDigitChar_code _ (Nat.mod_lt _ (by norm_num)),
      isDigitChar_code _ (Nat.mod_lt _ (by norm_num)),
      isDigitChar_code _ (Nat.mod_lt _ (by norm_num))]
    rfl

/-- C9: for every timestamp, the filename produced by the motion-capture file
writer decomposes as the prefix "MotionServer File ", a four-digit year and
two-digit month, day, hour and minute joined by underscores, a dot, a
two-digit second, and the extension ".mot" — the documented
"MotionServer File YYYY_MM_DD_HH_MM.SS.mot" format. -/
theorem getTimestampFilename_format (t : Timestamp) :
    ∃ y mo d h mi s : String,
      y.length = 4 ∧ mo.length = 2 ∧ d.length = 2 ∧ h.length = 2 ∧
      mi.length = 2 ∧ s.length = 2 ∧
      y.toList.all isDigitChar = true ∧ mo.toList.all isDigitChar = true ∧
      d.toList.all isDigitChar = true ∧ h.toList.all isDigitChar = true ∧
      mi.toList.all isDigitChar = true ∧ s.toList.all isDigitChar = true ∧
      getTimestampFilename t =
        "MotionServer File " ++ y ++ "_" ++ mo ++ "_" ++ d ++ "_" ++ h ++ "_" ++
          mi ++ "." ++ s ++ ".mot" := by
  refine ⟨digits4 t.year, digits2 t.month, digits2 t.day, digits2 t.hour,
    digits2 t.minute, digits2 t.second, (digits4_spec t.year).1,
    (digits2_spec t.month).1, (digits2_spec t.day).1, (digits2_spec t.hour).1,
    (digits2_spec t.minute).1, (digits2_spec t.second).1,
    (digits4_spec t.year).2, (digits2_spec t.month).2, (digits2_spec t.day).2,
    (digits2_spec t.hour).2, (digits2_spec t.minute).2, (digits2_spec t.second).2,
    rfl⟩

end MotionServer
